import Mathlib

/-!
# Verification of the OtakuLATAM ETL pipeline core

A shallow embedding of the transform/load pipeline of the repository
(`backend/etl/transformer.py`, `backend/etl/transformer_optimized.py`,
`backend/etl/loader.py`, `backend/database/connection_optimized.py`,
`backend/services/trm_service.py`, `backend/services/trm_cache.py`,
`backend/api/server.py`), together with theorems settling the spec claims.

Modelling conventions:
* pandas DataFrames become `List` of record structures; column operations
  become per-record operations (the pipeline only uses row-aligned column
  arithmetic, so this is faithful up to pandas dtype artifacts).
* Python floats and `Decimal` become `Rat`; `round(x, 2)` / `.round(2)`
  becomes `round2` below (rounding of `x * 100` to an integer, divided by
  100).  Source and spec apply the same rounding operator, so the claims
  are insensitive to the tie-breaking convention.
* Missing values (`NaN` after `pd.to_numeric(errors='coerce')`, absent
  fields) become `Option`.
* Wall-clock timestamps are passed in as explicit parameters.
-/

namespace ETL

/-- Two-decimal rounding, the embedding of Python's `round(x, 2)` /
pandas `.round(2)`. -/
def round2 (x : Rat) : Rat := (round (x * 100) : Int) / 100

/-- Python whitespace, as stripped by `str.strip()`. -/
def isPySpace (c : Char) : Bool :=
  c = ' ' || c = '\t' || c = '\n' || c = '\x0d' || c = '\x0b' || c = '\x0c'

/-- Embedding of Python's `str.strip()` (pandas `.str.strip()`). -/
def pyStrip (s : String) : String :=
  ⟨((s.data.dropWhile isPySpace).reverse.dropWhile isPySpace).reverse⟩

/-- Embedding of Python's `str.lower()` (pandas `.str.lower()`); ASCII
case folding, which covers every vocabulary key of the translators. -/
def pyLower (s : String) : String := ⟨s.data.map Char.toLower⟩

/-- Normalisation applied by `_clean_data` to the `gender` and `illness`
columns: the generic text strip (`.astype(str).str.strip()`) followed by
`.str.lower().str.strip()`. -/
def normalizeLower (s : String) : String := pyStrip (pyLower (pyStrip s))

/-- One raw input row (post-extraction).  `age` and `income` hold the value
of `pd.to_numeric(..., errors='coerce')`: `none` is NaN (missing or
unparseable), mirroring `_clean_data` / `_clean_data_optimized`. -/
structure RawRecord where
  name : Option String
  age : Option Rat
  gender : Option String
  income : Option Rat
  illness : Option String
deriving Repr, DecidableEq

/-- One row after `_clean_data`: the five critical fields are present
(rows with a null critical field were dropped by
`dropna(subset=['name','age','gender','income','illness'])`), text is
stripped, and `gender` / `illness` are lower-cased. -/
structure CleanRecord where
  name : String
  age : Rat
  gender : String
  income : Rat
  illness : String
deriving Repr, DecidableEq

/-- Cleaning of a single row (`_clean_data` / `_clean_data_optimized`):
strip text, keep coerced numerics, lower-case `gender` and `illness`,
drop the row if any critical field is null. -/
def cleanRecord (r : RawRecord) : Option CleanRecord :=
  match r.name, r.age, r.gender, r.income, r.illness with
  | some n, some a, some g, some i, some il =>
      some { name := pyStrip n
             age := a
             gender := normalizeLower g
             income := i
             illness := normalizeLower il }
  | _, _, _, _, _ => none

/-- Cleaning of the whole frame: rows failing `cleanRecord` are dropped. -/
def cleanData (rs : List RawRecord) : List CleanRecord :=
  rs.filterMap cleanRecord

/-- `self.gender_translation` from the transformer. -/
def gender_translation : List (String × String) :=
  [("male", "Masculino"), ("female", "Femenino"),
   ("m", "Masculino"), ("f", "Femenino")]

/-- `self.illness_translation` from the transformer. -/
def illness_translation : List (String × String) :=
  [("yes", "Sí"), ("no", "No"), ("y", "Sí"), ("n", "No"),
   ("true", "Sí"), ("false", "No"), ("1", "Sí"), ("0", "No")]

/-- `_transform_gender`: dictionary map, then `fillna(df['gender'])` —
an unmapped (cleaned) gender value falls back to itself. -/
def mapGender (g : String) : String :=
  (gender_translation.lookup g).getD g

/-- `_transform_illness`: dictionary map, then `fillna('No')` —
an unmapped (cleaned) illness value falls back to the literal `"No"`. -/
def mapIllness (il : String) : String :=
  (illness_translation.lookup il).getD "No"

/-- `trm_value or Decimal('4200.00')` resolution in `transform_data`
(both transformer variants, lines 66–70): an explicit rate is used only
via Python truthiness, so an explicit zero falls back to 4200; the rate
service is consulted only when no explicit rate is passed. -/
def resolveTrm (trm_value : Option Rat) (svc : Option Rat) : Rat :=
  match trm_value, svc with
  | none, some s => s
  | none, none => (4200 : Rat)
  | some v, _ => if v = 0 then (4200 : Rat) else v

/-- The canonical output row, with the column set and Spanish names that
`_add_transformation_metadata` produces (in frontend order). -/
structure TransformedRecord where
  nombre : String
  edad_anos : Rat
  edad_lustros : Rat
  genero_original : String
  genero_es : String
  ingreso_usd : Rat
  ingreso_cop : Rat
  trm_utilizada : Rat
  enfermedad_original : String
  enfermedad_es : String
  fecha_procesamiento : String
deriving Repr, DecidableEq

/-- Per-row effect of `_transform_gender`, `_transform_illness`,
`_transform_age_to_lustros`, `_transform_income_to_cop` and
`_add_transformation_metadata` on one cleaned row, given the resolved TRM
and the processing timestamp. -/
def transformRecord (trm : Rat) (ts : String) (c : CleanRecord) :
    TransformedRecord :=
  { nombre := c.name
    edad_anos := c.age
    edad_lustros := round2 (c.age / 5)
    genero_original := c.gender
    genero_es := mapGender c.gender
    ingreso_usd := c.income
    ingreso_cop := round2 (c.income * trm)
    trm_utilizada := trm
    enfermedad_original := c.illness
    enfermedad_es := mapIllness c.illness
    fecha_procesamiento := ts }

/-- `DataTransformer.transform_data` / the optimized variant: clean, resolve
the TRM once for the batch, apply the field transformations row-wise and
stamp the metadata.  The function is total: no step of the source body
raises on an empty (or emptied) frame. -/
def transform_data (rs : List RawRecord) (trm_value : Option Rat)
    (svc : Option Rat) (ts : String) : List TransformedRecord :=
  (cleanData rs).map (transformRecord (resolveTrm trm_value svc) ts)

/-! ## HTTP pipeline orchestration (`api/server.py`, `process_etl_pipeline`) -/

/-- The outcome `process_etl_pipeline` hands to the HTTP layer: the
`except` clause converts any raised exception into a
`{'success': False, 'error': str(e)}` payload. -/
inductive PipelineResult where
  | ok (records : List TransformedRecord)
  | err (msg : String)
deriving Repr, DecidableEq

/-- `process_etl_pipeline` (server.py, lines 339–438), restricted to its
data path: raise (→ error payload) when extraction yields an empty frame,
raise when the transform output is empty, otherwise succeed.  The empty
checks live in the orchestrator, not inside `transform_data`. -/
def process_etl_pipeline (rs : List RawRecord) (trm_value : Option Rat)
    (svc : Option Rat) (ts : String) : PipelineResult :=
  if rs.isEmpty then
    .err "No se pudieron extraer datos del archivo"
  else
    let td := transform_data rs trm_value svc ts
    if td.isEmpty then .err "Error en la transformación de datos"
    else .ok td

/-! ## Relational sink (`database/connection_optimized.py`) -/

/-- One row of `personas_transformadas` as prepared by
`DataLoader._prepare_dataframe_for_database` (loader.py): `edad_anos`
is cast with `int(...)`. -/
structure DBRecord where
  nombre : String
  edad_anos : Int
  edad_lustros : Rat
  genero_original : String
  genero_es : String
  ingreso_usd : Rat
  ingreso_cop : Rat
  trm_utilizada : Rat
  enfermedad_original : String
  enfermedad_es : String
  fecha_procesamiento : String
deriving Repr, DecidableEq

/-- The committed contents of the `personas_transformadas` table. -/
abbrev DB := List DBRecord

/-- The tuple `verificar_duplicado` matches on:
`(nombre, edad_anos, genero_original, ingreso_usd)`. -/
def dupKey (r : DBRecord) : String × Int × String × Rat :=
  (r.nombre, r.edad_anos, r.genero_original, r.ingreso_usd)

/-- `verificar_duplicado` with its exception behaviour made explicit:
the `COUNT(*)` query against the visible table contents when the query
succeeds, and the `except` branch's `return False` when the query itself
fails (`queryFails = true`). -/
def verificar_duplicado (visible : DB) (k : String × Int × String × Rat)
    (queryFails : Bool) : Bool :=
  if queryFails then false
  else visible.any (fun r => decide (dupKey r = k))

/-- Splits a record list into consecutive batches of `n`
(`records_data[i:i + batch_size]` loop in
`insertar_personas_transformadas_bulk`). -/
def toBatches (n : Nat) (l : List DBRecord) : List (List DBRecord) :=
  match l with
  | [] => []
  | x :: xs => (x :: xs.take (n - 1)) :: toBatches n (xs.drop (n - 1))
termination_by l.length
decreasing_by simp [List.length_drop]; omega

/-- The per-batch body of `insertar_personas_transformadas_bulk`: every
record of the batch is duplicate-checked against the rows visible to the
open transaction (committed rows plus the earlier batches' executed
inserts — `executemany` runs per batch, the batch being built is not yet
visible), survivors are executed, and processing moves to the next batch.
Returns (final visible rows, records inserted, duplicates skipped).
`checkFails` injects a per-record failure of the duplicate query. -/
def runBatches (checkFails : DBRecord → Bool) (visible : DB) :
    List (List DBRecord) → DB × Nat × Nat
  | [] => (visible, 0, 0)
  | b :: bs =>
      let bd := b.filter
        (fun r => ! verificar_duplicado visible (dupKey r) (checkFails r))
      let rest := runBatches checkFails (visible ++ bd) bs
      (rest.1, bd.length + rest.2.1, (b.length - bd.length) + rest.2.2)

/-- `insertar_personas_transformadas_bulk` with injectable duplicate-query
failures, on an exception-free run: batches of 1000, commit at the end.
Result: (table contents after commit, `registros_insertados`,
`registros_duplicados`). -/
def insertarBulkGen (checkFails : DBRecord → Bool) (db : DB)
    (records : List DBRecord) : DB × Nat × Nat :=
  match records with
  | [] => (db, 0, 0)
  | _ => runBatches checkFails db (toBatches 1000 records)

/-- `insertar_personas_transformadas_bulk` as run when every duplicate
query succeeds. -/
def insertarBulk (db : DB) (records : List DBRecord) : DB × Nat × Nat :=
  insertarBulkGen (fun _ => false) db records

/-- `insertar_personas_transformadas_bulk` including its exception path:
when the bulk insert raises mid-batch (`dbRaises = true`), the handler
rolls the transaction back — the committed table is unchanged, since the
single `commit` sits after the loop — and re-raises. -/
def insertarBulkRun (db : DB) (records : List DBRecord) (dbRaises : Bool) :
    Except String (DB × Nat × Nat) :=
  if dbRaises then .error "Error en bulk insert"
  else .ok (insertarBulk db records)

/-! ## Multi-sink loader (`etl/loader.py`) -/

/-- Timestamped artifact names produced by the five file sinks
(`save_to_json`, `save_to_parquet`, `save_to_csv`,
`generate_sql_insert_script`, `create_data_summary`), with
`get_timestamp_for_filename()` passed in as `ts`. -/
def jsonFileName (ts : String) : String :=
  "data/output/transformed_data_" ++ ts ++ ".json"

def parquetFileName (ts : String) : String :=
  "data/output/transformed_data_" ++ ts ++ ".parquet"

def csvFileName (ts : String) : String :=
  "data/output/transformed_data_" ++ ts ++ ".csv"

def sqlScriptFileName (ts : String) : String :=
  "data/output/insert_script_" ++ ts ++ ".sql"

def summaryFileName (ts : String) : String :=
  "data/output/data_summary_" ++ ts ++ ".json"

/-- Which of the five file-write attempts fail (exception inside the
wrapped `try`), injected as the environment of one `load_otaku_data`
call. -/
structure SinkFailures where
  json : Bool
  parquet : Bool
  csv : Bool
  sql : Bool
  summary : Bool
deriving Repr, DecidableEq

/-- The `results` dictionary assembled by `load_otaku_data`. -/
structure LoadResult where
  json_file : Option String
  parquet_file : Option String
  csv_file : Option String
  sql_script : Option String
  summary_file : Option String
  database_records : Nat
  cloud_url : Option String
  errors : List String
deriving Repr, DecidableEq

/-- Error strings appended by the five sink handlers and the database
handler of `load_otaku_data`. -/
def jsonErrMsg : String := "Error guardando JSON"
def parquetErrMsg : String := "Error guardando Parquet"
def csvErrMsg : String := "Error guardando CSV"
def sqlErrMsg : String := "Error generando script SQL"
def summaryErrMsg : String := "Error creando resumen"
def dbErrMsg : String := "Error cargando a base de datos"

/-- `OtakuDataLoader.load_otaku_data` (loader.py, lines 520–605): the five
file writes each wrapped in their own `try/except` that appends to
`results['errors']`; then the optional database load (whose exception the
rolled-back sink re-raised) caught the same way; then the optional cloud
upload of the JSON artifact.  Returns the `results` dictionary together
with the table contents after the call. -/
def load_otaku_data (db : Option DB) (records : List DBRecord)
    (f : SinkFailures) (dbRaises : Bool) (cloud : Option String)
    (ts : String) : LoadResult × Option DB :=
  let r0 : LoadResult :=
    { json_file := none, parquet_file := none, csv_file := none
      sql_script := none, summary_file := none, database_records := 0
      cloud_url := none, errors := [] }
  let r1 := if f.json then { r0 with errors := r0.errors ++ [jsonErrMsg] }
            else { r0 with json_file := some (jsonFileName ts) }
  let r2 := if f.parquet then { r1 with errors := r1.errors ++ [parquetErrMsg] }
            else { r1 with parquet_file := some (parquetFileName ts) }
  let r3 := if f.csv then { r2 with errors := r2.errors ++ [csvErrMsg] }
            else { r2 with csv_file := some (csvFileName ts) }
  let r4 := if f.sql then { r3 with errors := r3.errors ++ [sqlErrMsg] }
            else { r3 with sql_script := some (sqlScriptFileName ts) }
  let r5 := if f.summary then { r4 with errors := r4.errors ++ [summaryErrMsg] }
            else { r4 with summary_file := some (summaryFileName ts) }
  match db with
  | none =>
      let r7 := match cloud, r5.json_file with
        | some url, some _ => { r5 with cloud_url := some url }
        | _, _ => r5
      (r7, none)
  | some d =>
      match insertarBulkRun d records dbRaises with
      | .ok (d', n, _) =>
          let r6 := { r5 with database_records := n }
          let r7 := match cloud, r6.json_file with
            | some url, some _ => { r6 with cloud_url := some url }
            | _, _ => r6
          (r7, some d')
      | .error _ =>
          let r6 := { r5 with errors := r5.errors ++ [dbErrMsg] }
          let r7 := match cloud, r6.json_file with
            | some url, some _ => { r6 with cloud_url := some url }
            | _, _ => r6
          (r7, some d)

/-! ## Exchange-rate service (`services/trm_service.py`,
`services/trm_service_optimized.py`) -/

/-- `self.fallback_trm = Decimal('4200.00')`. -/
def fallback_trm : Rat := 4200

/-- The `valor` field of the first element of the API's JSON array:
absent (`.get` default), present but not parseable by `Decimal(str(v))`
(raises `ValueError`, caught), or a numeric value. -/
inductive ValorField where
  | missing
  | unparseable
  | num (q : Rat)
deriving Repr, DecidableEq

/-- The possible outcomes of `requests.get(...)` + `response.json()` as
`obtener_trm_actual` distinguishes them: a `RequestException` (network
error, HTTP error status, timeout), a processing error
(`ValueError`/`KeyError`/`TypeError`), any other exception, or a parsed
JSON array. -/
inductive TrmApiResponse where
  | networkError
  | timeoutError
  | malformed
  | otherError
  | ok (data : List ValorField)
deriving Repr, DecidableEq

/-- `TRMService.obtener_trm_actual` (identical fetch logic in both service
variants): every `except` branch returns `_obtener_trm_respaldo()`; an
empty array and a missing `valor` fall back as well.  The function is
total — no exception escapes to the caller. -/
def obtener_trm_actual (resp : TrmApiResponse) : Rat :=
  match resp with
  | .networkError => fallback_trm
  | .timeoutError => fallback_trm
  | .malformed => fallback_trm
  | .otherError => fallback_trm
  | .ok [] => fallback_trm
  | .ok (v :: _) =>
      match v with
      | .missing => fallback_trm
      | .unparseable => fallback_trm
      | .num q => q

/-- `validar_trm`: advisory range check `3000 ≤ trm ≤ 6000`. -/
def validar_trm (v : Rat) : Bool := 3000 ≤ v && v ≤ 6000

/-- The failure modes of the rate fetch named by the spec (network error,
timeout, malformed response — including a first element without a usable
`valor` — empty response, plus the catch-all `except Exception` branch).
A response whose first element carries a numeric `valor` is the success
case. -/
def isFetchFailure : TrmApiResponse → Bool
  | .networkError => true
  | .timeoutError => true
  | .malformed => true
  | .otherError => true
  | .ok [] => true
  | .ok (.missing :: _) => true
  | .ok (.unparseable :: _) => true
  | .ok (.num _ :: _) => false

/-! ## Rate cache (`services/trm_cache.py`) -/

/-- The persisted cache file: absent, unreadable/unparseable, or a valid
`{timestamp, trm_value}` record.  Timestamps are seconds on an abstract
clock. -/
inductive CacheState where
  | missing
  | corrupt
  | valid (timestamp : Int) (value : Rat)
deriving Repr, DecidableEq

/-- `cache_duration = timedelta(hours=24)` in seconds. -/
def defaultTtl : Int := 24 * 3600

/-- `TRMCache.get_cached_trm`: a missing file returns `None`; any
read/parse error is caught and returns `None`; a valid record returns the
rate iff `now - cached_time < cache_duration` (strict, one-sided). -/
def get_cached_trm (now ttl : Int) (c : CacheState) : Option Rat :=
  match c with
  | .missing => none
  | .corrupt => none
  | .valid ts v => if now - ts < ttl then some v else none

/-- `TRMCache.save_trm_to_cache`: writes `{timestamp: now, trm_value}`,
unconditionally replacing whatever was stored. -/
def save_trm_to_cache (now : Int) (v : Rat) (_old : CacheState) : CacheState :=
  .valid now v

/-! ## Helper lemmas -/

/-- Unfolding membership in a transform output. -/
theorem mem_transform_data {t : TransformedRecord} {rs : List RawRecord}
    {tv svc : Option Rat} {ts : String} :
    t ∈ transform_data rs tv svc ts ↔
      ∃ c ∈ cleanData rs, transformRecord (resolveTrm tv svc) ts c = t := by
  simp [transform_data]

/-- A key outside the illness vocabulary finds no translation. -/
theorem illness_lookup_eq_none {k : String}
    (h : k ∉ ["yes", "y", "true", "1", "no", "n", "false", "0"]) :
    illness_translation.lookup k = none := by
  simp only [List.mem_cons, not_or] at h
  obtain ⟨h1, h2, h3, h4, h5, h6, h7, h8, -⟩ := h
  simp [illness_translation, List.lookup,
    beq_eq_false_iff_ne.mpr h1, beq_eq_false_iff_ne.mpr h2,
    beq_eq_false_iff_ne.mpr h3, beq_eq_false_iff_ne.mpr h4,
    beq_eq_false_iff_ne.mpr h5, beq_eq_false_iff_ne.mpr h6,
    beq_eq_false_iff_ne.mpr h7, beq_eq_false_iff_ne.mpr h8]

/-- A key outside the gender vocabulary finds no translation. -/
theorem gender_lookup_eq_none {k : String}
    (h : k ∉ ["male", "female", "m", "f"]) :
    gender_translation.lookup k = none := by
  simp only [List.mem_cons, not_or] at h
  obtain ⟨h1, h2, h3, h4, -⟩ := h
  simp [gender_translation, List.lookup,
    beq_eq_false_iff_ne.mpr h1, beq_eq_false_iff_ne.mpr h2,
    beq_eq_false_iff_ne.mpr h3, beq_eq_false_iff_ne.mpr h4]

/-- Batching never loses or duplicates records. -/
theorem toBatches_flatten (n : Nat) :
    ∀ l : List DBRecord, (toBatches n l).flatten = l
  | [] => by simp [toBatches]
  | x :: xs => by
      rw [toBatches]
      simp only [List.flatten_cons]
      rw [toBatches_flatten n (xs.drop (n - 1))]
      simp [List.take_append_drop]
termination_by l => l.length
decreasing_by simp [List.length_drop]; omega

/-- Rows visible when batch processing starts are still there at the end
(the transaction only accumulates inserts). -/
theorem runBatches_mono (cf : DBRecord → Bool) :
    ∀ (bs : List (List DBRecord)) (visible : DB) (x : DBRecord),
      x ∈ visible → x ∈ (runBatches cf visible bs).1
  | [], _, x, hx => by simpa [runBatches] using hx
  | b :: bs, visible, x, hx => by
      simp only [runBatches]
      exact runBatches_mono cf bs _ x (List.mem_append_left _ hx)

/-- After a bulk run, every processed record's duplicate key is present
among the visible rows: either it was there already (the duplicate skip)
or the record itself was executed. -/
theorem runBatches_key_present (cf : DBRecord → Bool) :
    ∀ (bs : List (List DBRecord)) (visible : DB) (b : List DBRecord)
      (r : DBRecord), b ∈ bs → r ∈ b →
      ∃ x ∈ (runBatches cf visible bs).1, dupKey x = dupKey r
  | [], _, _, _, hb, _ => absurd hb (List.not_mem_nil _)
  | b0 :: bs, visible, b, r, hb, hr => by
      rcases List.mem_cons.mp hb with hb0 | hbs
      · subst hb0
        by_cases hdup : verificar_duplicado visible (dupKey r) (cf r) = true
        · have : ∃ x ∈ visible, dupKey x = dupKey r := by
            simp only [verificar_duplicado] at hdup
            split at hdup
            · exact absurd hdup (by simp)
            · simpa [List.any_eq_true] using hdup
          obtain ⟨x, hxv, hxk⟩ := this
          exact ⟨x, runBatches_mono cf (b :: bs) visible x hxv, hxk⟩
        · have hrbd : r ∈ b.filter
              (fun r => ! verificar_duplicado visible (dupKey r) (cf r)) := by
            simp [List.mem_filter, hr, hdup]
          simp only [runBatches]
          refine ⟨r, ?_, rfl⟩
          exact runBatches_mono cf bs _ r (List.mem_append_right _ hrbd)
      · simp only [runBatches]
        exact runBatches_key_present cf bs _ b r hbs hr

/-- When every record's key is already visible (and the duplicate query
works), a run executes nothing: the table is unchanged, zero rows are
inserted, and every record is counted as a skipped duplicate. -/
theorem runBatches_all_dup :
    ∀ (bs : List (List DBRecord)) (visible : DB),
      (∀ b ∈ bs, ∀ r ∈ b, ∃ x ∈ visible, dupKey x = dupKey r) →
      runBatches (fun _ => false) visible bs =
        (visible, 0, (bs.map List.length).sum)
  | [], visible, _ => by simp [runBatches]
  | b :: bs, visible, h => by
      have hbd : b.filter
          (fun r => ! verificar_duplicado visible (dupKey r) false) = [] := by
        rw [List.filter_eq_nil_iff]
        intro r hr
        obtain ⟨x, hxv, hxk⟩ := h b (List.mem_cons_self b bs) r hr
        simp [verificar_duplicado, List.any_eq_true]
        exact ⟨x, hxv, hxk⟩
      simp only [runBatches, hbd]
      rw [List.append_nil]
      rw [runBatches_all_dup bs visible
        (fun b' hb' => h b' (List.mem_cons_of_mem _ hb'))]
      simp

/-- A record whose duplicate query fails is always executed: the failed
check reads as "not a duplicate". -/
theorem runBatches_fail_inserted (cf : DBRecord → Bool) :
    ∀ (bs : List (List DBRecord)) (visible : DB) (b : List DBRecord)
      (r : DBRecord), b ∈ bs → r ∈ b → cf r = true →
      r ∈ (runBatches cf visible bs).1
  | [], _, _, _, hb, _, _ => absurd hb (List.not_mem_nil _)
  | b0 :: bs, visible, b, r, hb, hr, hf => by
      rcases List.mem_cons.mp hb with hb0 | hbs
      · subst hb0
        have hrbd : r ∈ b.filter
            (fun r => ! verificar_duplicado visible (dupKey r) (cf r)) := by
          simp [List.mem_filter, hr, verificar_duplicado, hf]
        simp only [runBatches]
        exact runBatches_mono cf bs _ r (List.mem_append_right _ hrbd)
      · simp only [runBatches]
        exact runBatches_fail_inserted cf bs _ b r hbs hr hf

/-- Stripping `pre` and `suf` recovers the timestamp of an artifact name. -/
theorem append_affix_inj (pre suf : String) {ts1 ts2 : String}
    (h : pre ++ ts1 ++ suf = pre ++ ts2 ++ suf) : ts1 = ts2 := by
  have hd := congrArg String.data h
  simp only [String.data_append, List.append_assoc] at hd
  exact String.ext (List.append_cancel_right (List.append_cancel_left hd))

set_option maxHeartbeats 1000000 in
/-- Closed form of a `load_otaku_data` call with a database sink: each of
the five file artifacts is produced exactly when its write does not fail,
each failing step contributes its own entry to `errors` (in program
order), a raising database insert contributes `dbErrMsg`, zero rows and an
unchanged table (the rollback), and a successful one commits the bulk
result. -/
theorem load_otaku_data_eq (db : DB) (records : List DBRecord)
    (f : SinkFailures) (dbRaises : Bool) (cloud : Option String) (ts : String) :
    load_otaku_data (some db) records f dbRaises cloud ts =
      ({ json_file := if f.json then none else some (jsonFileName ts)
         parquet_file := if f.parquet then none else some (parquetFileName ts)
         csv_file := if f.csv then none else some (csvFileName ts)
         sql_script := if f.sql then none else some (sqlScriptFileName ts)
         summary_file := if f.summary then none else some (summaryFileName ts)
         database_records := if dbRaises then 0 else (insertarBulk db records).2.1
         cloud_url := if f.json then none else cloud
         errors :=
           (if f.json then [jsonErrMsg] else []) ++
           (if f.parquet then [parquetErrMsg] else []) ++
           (if f.csv then [csvErrMsg] else []) ++
           (if f.sql then [sqlErrMsg] else []) ++
           (if f.summary then [summaryErrMsg] else []) ++
           (if dbRaises then [dbErrMsg] else []) },
       some (if dbRaises then db else (insertarBulk db records).1)) := by
  obtain ⟨fj, fp, fc, fs, fm⟩ := f
  cases fj <;> cases fp <;> cases fc <;> cases fs <;> cases fm <;>
    cases dbRaises <;> cases cloud <;>
    simp [load_otaku_data, insertarBulkRun]

/-- After a bulk insert, every processed record's duplicate key is present
in the table. -/
theorem insertarBulk_keys (db : DB) (records : List DBRecord) :
    ∀ r ∈ records, ∃ x ∈ (insertarBulk db records).1, dupKey x = dupKey r := by
  intro r hr
  cases records with
  | nil => cases hr
  | cons a rs' =>
      have hmem : r ∈ (toBatches 1000 (a :: rs')).flatten := by
        rw [toBatches_flatten]; exact hr
      obtain ⟨b, hb, hrb⟩ := List.mem_flatten.mp hmem
      exact runBatches_key_present _ _ db b r hb hrb

/-- A bulk insert whose records all have keys already in the table skips
everything: no inserts, table unchanged, all records counted duplicate. -/
theorem insertarBulk_all_dup (db : DB) (records : List DBRecord)
    (h : ∀ r ∈ records, ∃ x ∈ db, dupKey x = dupKey r) :
    insertarBulk db records = (db, 0, records.length) := by
  cases records with
  | nil => simp [insertarBulk, insertarBulkGen]
  | cons a rs' =>
      have hall : ∀ b ∈ toBatches 1000 (a :: rs'), ∀ r ∈ b,
          ∃ x ∈ db, dupKey x = dupKey r := by
        intro b hb r hrb
        have : r ∈ (a :: rs') := by
          rw [← toBatches_flatten 1000 (a :: rs')]
          exact List.mem_flatten.mpr ⟨b, hb, hrb⟩
        exact h r this
      have hrun := runBatches_all_dup (toBatches 1000 (a :: rs')) db hall
      have hlen : ((toBatches 1000 (a :: rs')).map List.length).sum =
          (a :: rs').length := by
        rw [← List.length_flatten, toBatches_flatten]
      simpa [insertarBulk, insertarBulkGen, hlen] using hrun

/-- C1: for every raw record that survives cleaning in one transform
batch, the output satisfies `edad_lustros = round2 (edad_anos / 5)` and
`ingreso_cop = round2 (ingreso_usd * trm)`, where the stamped
`trm_utilizada` is the batch-resolved rate, identical across the batch. -/
theorem claim_C1 (rs : List RawRecord) (tv svc : Option Rat) (ts : String)
    {t : TransformedRecord} (ht : t ∈ transform_data rs tv svc ts) :
    t.edad_lustros = round2 (t.edad_anos / 5) ∧
    t.ingreso_cop = round2 (t.ingreso_usd * t.trm_utilizada) ∧
    t.trm_utilizada = resolveTrm tv svc ∧
    ∀ t' ∈ transform_data rs tv svc ts, t'.trm_utilizada = t.trm_utilizada := by
  obtain ⟨c, -, rfl⟩ := mem_transform_data.mp ht
  refine ⟨rfl, rfl, rfl, ?_⟩
  intro t' ht'
  obtain ⟨c', -, rfl⟩ := mem_transform_data.mp ht'
  rfl

/-- C1 witness: the spec's own scenario record (Ana, 25, Female, 1000,
No) at rate 4000. -/
theorem claim_C1_witness :
    (transformRecord (resolveTrm (some 4000) none) "2024-01-01 00:00:00"
        ⟨"Ana", 25, "female", 1000, "no"⟩) ∈
      transform_data
        [⟨some "Ana", some 25, some "Female", some 1000, some "No"⟩]
        (some 4000) none "2024-01-01 00:00:00" ∧
    (transformRecord (resolveTrm (some 4000) none) "2024-01-01 00:00:00"
        ⟨"Ana", 25, "female", 1000, "no"⟩).edad_lustros =
      round2 ((transformRecord (resolveTrm (some 4000) none)
        "2024-01-01 00:00:00" ⟨"Ana", 25, "female", 1000, "no"⟩).edad_anos / 5) := by
  have hc : cleanData
      [⟨some "Ana", some 25, some "Female", some 1000, some "No"⟩] =
      [⟨"Ana", 25, "female", 1000, "no"⟩] := by decide
  have hm : (transformRecord (resolveTrm (some 4000) none) "2024-01-01 00:00:00"
      ⟨"Ana", 25, "female", 1000, "no"⟩) ∈
      transform_data
        [⟨some "Ana", some 25, some "Female", some 1000, some "No"⟩]
        (some 4000) none "2024-01-01 00:00:00" := by
    simp [transform_data, hc]
  exact ⟨hm, (claim_C1 _ _ _ _ hm).1⟩

/-- C2 counterexample: on a record set that becomes empty after cleaning
(Ana's `age` is missing), `transform_data` does not raise — it returns the
empty record list; the "no data" failure is raised by the orchestrator's
post-transform check, not by the transform operation. -/
theorem claim_C2_counterexample :
    transform_data
      [⟨some "Ana", none, some "Female", some 1000, some "No"⟩]
      (some 4000) none "2024-01-01 00:00:00" = [] ∧
    process_etl_pipeline
      [⟨some "Ana", none, some "Female", some 1000, some "No"⟩]
      (some 4000) none "2024-01-01 00:00:00" =
      .err "Error en la transformación de datos" := by
  constructor
  · rfl
  · rfl

/-- C2 (amended): on an input that is empty or becomes empty after
cleaning, the transform returns an empty result without raising, and the
HTTP pipeline orchestrator then fails the run with an error outcome (its
empty-extraction or empty-transform check). -/
theorem claim_C2 (rs : List RawRecord) (tv svc : Option Rat) (ts : String)
    (h : cleanData rs = []) :
    transform_data rs tv svc ts = [] ∧
    process_etl_pipeline rs tv svc ts =
      .err (if rs.isEmpty then "No se pudieron extraer datos del archivo"
            else "Error en la transformación de datos") := by
  have h1 : transform_data rs tv svc ts = [] := by
    simp [transform_data, h]
  refine ⟨h1, ?_⟩
  by_cases hrs : rs.isEmpty
  · simp [process_etl_pipeline, hrs]
  · simp only [process_etl_pipeline, hrs, if_false, Bool.false_eq_true, h1]
    simp

/-- C2 witness: a one-row input whose `age` is missing cleans to the
empty frame. -/
theorem claim_C2_witness :
    cleanData [⟨some "Bob", none, some "Male", some 10, some "yes"⟩] = [] ∧
    (transform_data [⟨some "Bob", none, some "Male", some 10, some "yes"⟩]
        none none "t" = [] ∧
      process_etl_pipeline
        [⟨some "Bob", none, some "Male", some 10, some "yes"⟩] none none "t" =
        .err (if ([⟨some "Bob", none, some "Male", some 10, some "yes"⟩] :
            List RawRecord).isEmpty
          then "No se pudieron extraer datos del archivo"
          else "Error en la transformación de datos")) := by
  have hc : cleanData [⟨some "Bob", none, some "Male", some 10, some "yes"⟩] =
      [] := by decide
  exact ⟨hc, claim_C2 _ none none "t" hc⟩

/-- C3: an illness value whose trimmed, lower-cased form is outside the
vocabulary localizes to `"No"` — never to `"Sí"`, and never to the
original value unchanged. -/
theorem claim_C3 (v : String)
    (h : normalizeLower v ∉ ["yes", "y", "true", "1", "no", "n", "false", "0"]) :
    mapIllness (normalizeLower v) = "No" ∧
    mapIllness (normalizeLower v) ≠ "Sí" ∧
    mapIllness (normalizeLower v) ≠ v := by
  have hl := illness_lookup_eq_none h
  have h1 : mapIllness (normalizeLower v) = "No" := by simp [mapIllness, hl]
  refine ⟨h1, ?_, ?_⟩
  · rw [h1]; decide
  · rw [h1]
    intro hv
    rw [← hv] at h
    exact h (by decide)

/-- C3 witness: the unmapped value `"Maybe"`. -/
theorem claim_C3_witness :
    (normalizeLower "Maybe" ∉
      ["yes", "y", "true", "1", "no", "n", "false", "0"]) ∧
    (mapIllness (normalizeLower "Maybe") = "No" ∧
      mapIllness (normalizeLower "Maybe") ≠ "Sí" ∧
      mapIllness (normalizeLower "Maybe") ≠ "Maybe") := by
  have h : normalizeLower "Maybe" ∉
      ["yes", "y", "true", "1", "no", "n", "false", "0"] := by decide
  exact ⟨h, claim_C3 "Maybe" h⟩

/-- C4: a gender value outside the vocabulary passes through the
localization unchanged — in the output record, `genero_es` equals
`genero_original` (the identity fallback `fillna(df['gender'])`), in
contrast to the illness fallback to `"No"`. -/
theorem claim_C4 (rs : List RawRecord) (tv svc : Option Rat) (ts : String)
    {t : TransformedRecord} (ht : t ∈ transform_data rs tv svc ts)
    (h : t.genero_original ∉ ["male", "female", "m", "f"]) :
    t.genero_es = t.genero_original := by
  obtain ⟨c, -, rfl⟩ := mem_transform_data.mp ht
  have hl := gender_lookup_eq_none (k := c.gender)
    (by simpa [transformRecord] using h)
  simp [transformRecord, mapGender, hl]

/-- C4 witness: the unmapped gender `" Other "`. -/
theorem claim_C4_witness :
    ((transformRecord (resolveTrm (some 4000) none) "t"
        ⟨"Bob", 30, "other", 500, "yes"⟩) ∈
      transform_data [⟨some "Bob", some 30, some " Other ", some 500, some "Yes"⟩]
        (some 4000) none "t") ∧
    ((transformRecord (resolveTrm (some 4000) none) "t"
        ⟨"Bob", 30, "other", 500, "yes"⟩).genero_original ∉
      ["male", "female", "m", "f"]) ∧
    (transformRecord (resolveTrm (some 4000) none) "t"
        ⟨"Bob", 30, "other", 500, "yes"⟩).genero_es =
      (transformRecord (resolveTrm (some 4000) none) "t"
        ⟨"Bob", 30, "other", 500, "yes"⟩).genero_original := by
  have hc : cleanData [⟨some "Bob", some 30, some " Other ", some 500, some "Yes"⟩] =
      [⟨"Bob", 30, "other", 500, "yes"⟩] := by decide
  have hm : (transformRecord (resolveTrm (some 4000) none) "t"
      ⟨"Bob", 30, "other", 500, "yes"⟩) ∈
      transform_data [⟨some "Bob", some 30, some " Other ", some 500, some "Yes"⟩]
        (some 4000) none "t" := by
    simp [transform_data, hc]
  have hg : (transformRecord (resolveTrm (some 4000) none) "t"
      ⟨"Bob", 30, "other", 500, "yes"⟩).genero_original ∉
      ["male", "female", "m", "f"] := by decide
  exact ⟨hm, hg, claim_C4 _ _ _ _ hm hg⟩

/-- C5: running the load twice with a database sink on the same record
set inserts 0 relational rows the second time — every record is skipped
as a duplicate of its (nombre, edad_anos, genero_original, ingreso_usd)
tuple and counted, not treated as an error — while runs with distinct
timestamps produce distinctly-named file artifacts. -/
theorem claim_C5 (db : DB) (records : List DBRecord) (ts1 ts2 : String)
    (hts : ts1 ≠ ts2) :
    (insertarBulk (insertarBulk db records).1 records).2.1 = 0 ∧
    (insertarBulk (insertarBulk db records).1 records).1 =
      (insertarBulk db records).1 ∧
    (insertarBulk (insertarBulk db records).1 records).2.2 = records.length ∧
    (load_otaku_data (some db) records ⟨false, false, false, false, false⟩
        false none ts1).2 = some (insertarBulk db records).1 ∧
    (load_otaku_data (some (insertarBulk db records).1) records
        ⟨false, false, false, false, false⟩ false none ts2).1.database_records
      = 0 ∧
    (load_otaku_data (some db) records ⟨false, false, false, false, false⟩
        false none ts1).1.json_file = some (jsonFileName ts1) ∧
    (load_otaku_data (some (insertarBulk db records).1) records
        ⟨false, false, false, false, false⟩ false none ts2).1.json_file =
      some (jsonFileName ts2) ∧
    jsonFileName ts1 ≠ jsonFileName ts2 ∧
    parquetFileName ts1 ≠ parquetFileName ts2 ∧
    csvFileName ts1 ≠ csvFileName ts2 ∧
    sqlScriptFileName ts1 ≠ sqlScriptFileName ts2 ∧
    summaryFileName ts1 ≠ summaryFileName ts2 := by
  have hsecond : insertarBulk (insertarBulk db records).1 records =
      ((insertarBulk db records).1, 0, records.length) :=
    insertarBulk_all_dup _ _ (insertarBulk_keys db records)
  refine ⟨by rw [hsecond], by rw [hsecond], by rw [hsecond], ?_, ?_, ?_, ?_,
    fun he => hts (append_affix_inj "data/output/transformed_data_" ".json" he),
    fun he => hts (append_affix_inj "data/output/transformed_data_" ".parquet" he),
    fun he => hts (append_affix_inj "data/output/transformed_data_" ".csv" he),
    fun he => hts (append_affix_inj "data/output/insert_script_" ".sql" he),
    fun he => hts (append_affix_inj "data/output/data_summary_" ".json" he)⟩
  · rw [load_otaku_data_eq]
    simp
  · rw [load_otaku_data_eq]
    simp [hsecond]
  · rw [load_otaku_data_eq]
    simp
  · rw [load_otaku_data_eq]
    simp

/-- C5 witness: one record loaded twice on an initially empty table,
with two distinct filename timestamps. -/
theorem claim_C5_witness :
    ("20240101_000000" : String) ≠ "20240101_000001" ∧
    (insertarBulk (insertarBulk []
        [⟨"Ana", 25, 5, "female", "Femenino", 1000, 4200000, 4200, "no", "No", "t"⟩]).1
        [⟨"Ana", 25, 5, "female", "Femenino", 1000, 4200000, 4200, "no", "No", "t"⟩]).2.1
      = 0 ∧
    jsonFileName "20240101_000000" ≠ jsonFileName "20240101_000001" := by
  have hts : ("20240101_000000" : String) ≠ "20240101_000001" := by decide
  have h := claim_C5 []
    [⟨"Ana", 25, 5, "female", "Femenino", 1000, 4200000, 4200, "no", "No", "t"⟩]
    "20240101_000000" "20240101_000001" hts
  exact ⟨hts, h.1, h.2.2.2.2.2.2.2.1⟩

/-- C6: every one of the five file-write attempts is individually
wrapped — a failing write contributes exactly its own entry to `errors`
and the remaining artifacts are still produced; and when the relational
sink raises mid-batch, the transaction rollback leaves the committed
table unchanged (zero partial rows), the insert count is 0, the error is
captured in `errors`, and the file sinks are unaffected. -/
theorem claim_C6 (db : DB) (records : List DBRecord) (f : SinkFailures)
    (dbRaises : Bool) (cloud : Option String) (ts : String) :
    (load_otaku_data (some db) records f dbRaises cloud ts).1.json_file =
      (if f.json then none else some (jsonFileName ts)) ∧
    (load_otaku_data (some db) records f dbRaises cloud ts).1.parquet_file =
      (if f.parquet then none else some (parquetFileName ts)) ∧
    (load_otaku_data (some db) records f dbRaises cloud ts).1.csv_file =
      (if f.csv then none else some (csvFileName ts)) ∧
    (load_otaku_data (some db) records f dbRaises cloud ts).1.sql_script =
      (if f.sql then none else some (sqlScriptFileName ts)) ∧
    (load_otaku_data (some db) records f dbRaises cloud ts).1.summary_file =
      (if f.summary then none else some (summaryFileName ts)) ∧
    (load_otaku_data (some db) records f dbRaises cloud ts).1.errors =
      ((if f.json then [jsonErrMsg] else []) ++
       (if f.parquet then [parquetErrMsg] else []) ++
       (if f.csv then [csvErrMsg] else []) ++
       (if f.sql then [sqlErrMsg] else []) ++
       (if f.summary then [summaryErrMsg] else []) ++
       (if dbRaises then [dbErrMsg] else [])) ∧
    (load_otaku_data (some db) records f true cloud ts).2 = some db ∧
    (load_otaku_data (some db) records f true cloud ts).1.database_records = 0 ∧
    dbErrMsg ∈ (load_otaku_data (some db) records f true cloud ts).1.errors := by
  rw [load_otaku_data_eq, load_otaku_data_eq]
  refine ⟨rfl, rfl, rfl, rfl, rfl, rfl, by simp, by simp, ?_⟩
  simp

/-- C7: every failure mode of the rate fetch (network error, timeout,
malformed response, empty response, unusable `valor`, catch-all) returns
exactly the fallback constant 4200.00; `obtener_trm_actual` is total, so
no exception reaches the caller. -/
theorem claim_C7 (resp : TrmApiResponse) (h : isFetchFailure resp = true) :
    obtener_trm_actual resp = fallback_trm ∧ obtener_trm_actual resp = 4200 := by
  cases resp with
  | ok data =>
      cases data with
      | nil => exact ⟨rfl, rfl⟩
      | cons v rest =>
          cases v with
          | missing => exact ⟨rfl, rfl⟩
          | unparseable => exact ⟨rfl, rfl⟩
          | num q => simp [isFetchFailure] at h
  | networkError => exact ⟨rfl, rfl⟩
  | timeoutError => exact ⟨rfl, rfl⟩
  | malformed => exact ⟨rfl, rfl⟩
  | otherError => exact ⟨rfl, rfl⟩

/-- C7 witness: the timeout failure mode. -/
theorem claim_C7_witness :
    isFetchFailure .timeoutError = true ∧
    (obtener_trm_actual .timeoutError = fallback_trm ∧
      obtener_trm_actual .timeoutError = 4200) :=
  ⟨rfl, claim_C7 .timeoutError rfl⟩

/-- C8: the cache read returns the stored rate iff the persisted entry is
valid and its timestamp lies within the 24-hour TTL of the current time
(age strictly below TTL); a missing file and a read/parse failure both
yield `none` without raising, and a write overwrites the stored timestamp
and rate unconditionally. -/
theorem claim_C8 (now : Int) (r rate : Rat) (c old : CacheState) :
    (get_cached_trm now defaultTtl c = some r ↔
      ∃ ts v, c = .valid ts v ∧ v = r ∧ now - ts < defaultTtl) ∧
    get_cached_trm now defaultTtl .missing = none ∧
    get_cached_trm now defaultTtl .corrupt = none ∧
    save_trm_to_cache now rate old = .valid now rate := by
  refine ⟨?_, rfl, rfl, rfl⟩
  cases c with
  | missing => simp [get_cached_trm]
  | corrupt => simp [get_cached_trm]
  | valid ts v =>
      by_cases h : now - ts < defaultTtl
      · simp only [get_cached_trm, if_pos h, Option.some.injEq]
        constructor
        · rintro rfl
          exact ⟨ts, v, rfl, rfl, h⟩
        · rintro ⟨ts1, v1, heq, hvr, -⟩
          injection heq with h1 h2
          subst h1; subst h2
          exact hvr
      · simp only [get_cached_trm, if_neg h]
        constructor
        · intro hnone
          exact absurd hnone (by simp)
        · rintro ⟨ts1, v1, heq, hvr, hlt⟩
          injection heq with h1 h2
          subst h1
          exact absurd hlt h

/-- C9: an explicit rate of zero is discarded by the truthiness test
`trm_value or Decimal('4200.00')` — every record of the batch is converted
with and stamped 4200 — and with no service configured and no explicit
rate, 4200 is likewise used without any fetch. -/
theorem claim_C9 (rs : List RawRecord) (svc : Option Rat) (ts : String)
    {t t' : TransformedRecord}
    (ht : t ∈ transform_data rs (some 0) svc ts)
    (ht' : t' ∈ transform_data rs none none ts) :
    resolveTrm (some 0) svc = 4200 ∧
    t.trm_utilizada = 4200 ∧
    t.ingreso_cop = round2 (t.ingreso_usd * 4200) ∧
    resolveTrm none none = 4200 ∧
    t'.trm_utilizada = 4200 := by
  have h0 : resolveTrm (some 0) svc = 4200 := by
    cases svc <;> simp [resolveTrm]
  obtain ⟨c, -, rfl⟩ := mem_transform_data.mp ht
  obtain ⟨c', -, rfl⟩ := mem_transform_data.mp ht'
  refine ⟨h0, ?_, ?_, rfl, ?_⟩
  · simpa [transformRecord] using h0
  · simp [transformRecord, h0]
  · rfl

/-- C9 witness: the Ana record transformed with an explicit zero rate and
with neither a rate nor a service. -/
theorem claim_C9_witness :
    ((transformRecord (resolveTrm (some 0) none) "t"
        ⟨"Ana", 25, "female", 1000, "no"⟩) ∈
      transform_data [⟨some "Ana", some 25, some "Female", some 1000, some "No"⟩]
        (some 0) none "t") ∧
    ((transformRecord (resolveTrm none none) "t"
        ⟨"Ana", 25, "female", 1000, "no"⟩) ∈
      transform_data [⟨some "Ana", some 25, some "Female", some 1000, some "No"⟩]
        none none "t") ∧
    (transformRecord (resolveTrm (some 0) none) "t"
        ⟨"Ana", 25, "female", 1000, "no"⟩).trm_utilizada = 4200 ∧
    (transformRecord (resolveTrm none none) "t"
        ⟨"Ana", 25, "female", 1000, "no"⟩).trm_utilizada = 4200 := by
  have hc : cleanData [⟨some "Ana", some 25, some "Female", some 1000, some "No"⟩] =
      [⟨"Ana", 25, "female", 1000, "no"⟩] := by decide
  have hm : (transformRecord (resolveTrm (some 0) none) "t"
      ⟨"Ana", 25, "female", 1000, "no"⟩) ∈
      transform_data [⟨some "Ana", some 25, some "Female", some 1000, some "No"⟩]
        (some 0) none "t" := by
    simp [transform_data, hc]
  have hm2 : (transformRecord (resolveTrm none none) "t"
      ⟨"Ana", 25, "female", 1000, "no"⟩) ∈
      transform_data [⟨some "Ana", some 25, some "Female", some 1000, some "No"⟩]
        none none "t" := by
    simp [transform_data, hc]
  have h := claim_C9 _ none "t" hm hm2
  exact ⟨hm, hm2, h.2.1, h.2.2.2.2⟩

/-- C10: a duplicate-existence query that itself fails makes
`verificar_duplicado` return `False`, so the record reads as a
non-duplicate and is inserted — a failing check can only admit a record,
never skip it. -/
theorem claim_C10 (db : DB) (records : List DBRecord) (cf : DBRecord → Bool)
    (k : String × Int × String × Rat) {r : DBRecord}
    (hr : r ∈ records) (hf : cf r = true) :
    verificar_duplicado db k true = false ∧
    r ∈ (insertarBulkGen cf db records).1 := by
  refine ⟨rfl, ?_⟩
  cases records with
  | nil => cases hr
  | cons a rs' =>
      have heq : insertarBulkGen cf db (a :: rs') =
          runBatches cf db (toBatches 1000 (a :: rs')) := rfl
      rw [heq]
      have hmem : r ∈ (toBatches 1000 (a :: rs')).flatten := by
        rw [toBatches_flatten]; exact hr
      obtain ⟨b, hb, hrb⟩ := List.mem_flatten.mp hmem
      exact runBatches_fail_inserted cf _ db b r hb hrb hf

/-- C10 witness: even when a row with the same key is already in the
table, a record whose duplicate query fails is inserted. -/
theorem claim_C10_witness :
    (⟨"Ana", 25, 5, "female", "Femenino", 1000, 4200000, 4200, "no", "No", "t"⟩ :
        DBRecord) ∈
      ([⟨"Ana", 25, 5, "female", "Femenino", 1000, 4200000, 4200, "no", "No", "t"⟩] :
        List DBRecord) ∧
    verificar_duplicado
      [⟨"Ana", 25, 5, "female", "Femenino", 1000, 4200000, 4200, "no", "No", "t"⟩]
      ("Ana", 25, "female", 1000) true = false ∧
    (⟨"Ana", 25, 5, "female", "Femenino", 1000, 4200000, 4200, "no", "No", "t"⟩ :
        DBRecord) ∈
      (insertarBulkGen (fun _ => true)
        [⟨"Ana", 25, 5, "female", "Femenino", 1000, 4200000, 4200, "no", "No", "t"⟩]
        [⟨"Ana", 25, 5, "female", "Femenino", 1000, 4200000, 4200, "no", "No", "t"⟩]).1 := by
  have hr : (⟨"Ana", 25, 5, "female", "Femenino", 1000, 4200000, 4200, "no", "No", "t"⟩ :
      DBRecord) ∈
      ([⟨"Ana", 25, 5, "female", "Femenino", 1000, 4200000, 4200, "no", "No", "t"⟩] :
        List DBRecord) := List.mem_singleton.mpr rfl
  have h := claim_C10
    [⟨"Ana", 25, 5, "female", "Femenino", 1000, 4200000, 4200, "no", "No", "t"⟩]
    [⟨"Ana", 25, 5, "female", "Femenino", 1000, 4200000, 4200, "no", "No", "t"⟩]
    (fun _ => true) ("Ana", 25, "female", 1000) hr rfl
  exact ⟨hr, h.1, h.2⟩

end ETL
